import Mathlib

/-!
Verification of the Transition component (src/leptos/src/transition.rs).

The component creates a SuspenseContext, publishes it into the subtree, and
installs one reactively re-evaluated render closure whose body differs by
build target.  We embed each target branch of the closure as a pure function
from its inputs (readiness, the values the children and fallback renderers
would produce, the optional pending observer, the private cache slot) to an
outcome record that also logs the observable side effects: which renderer
was invoked, what was stored in the cache slot, which value the pending
observer was called with, and what was registered with the streaming
registry.
-/

namespace Leptos

/-- Modelled from the spec: the identifier cursor position used by
`HydrationCtx` (defined in leptos_dom, which is not among the reviewed
sources).  The spec describes it structurally as a base offset plus an
incrementable counter; the Transition component manipulates only the
`offset` field (`id_to_replace.offset += 2`). -/
structure HydrationKey where
  base : Nat
  offset : Nat
deriving DecidableEq, Repr

/-- Outcome of one evaluation of the client-target (csr/hydrate) render
closure of Transition (transition.rs lines 91-116).  `result` is the view
returned, `prev_child` the content of the private cache slot after the
evaluation, `pendingCall` the value the optional `set_pending` observer was
invoked with (`none` when no observer was supplied or none was made), and
the two flags record whether the `children` renderer and the `fallback`
renderer were invoked during this evaluation. -/
structure ClientOutcome (V : Type) where
  result : V
  prev_child : Option V
  pendingCall : Option Bool
  childrenCalled : Bool
  fallbackCalled : Bool
deriving DecidableEq, Repr

/-- One evaluation of the client-target render closure (transition.rs lines
96-115).  `childVal` is the view the `children` renderer produces if invoked
in this evaluation, `fallbackVal` the view the `fallback` renderer produces,
`set_pending` whether a pending observer was supplied, and `prev_child` the
content of the cache slot at entry. -/
def clientEval {V : Type} (ready : Bool) (childVal fallbackVal : V)
    (set_pending : Bool) (prev_child : Option V) : ClientOutcome V :=
  if ready then
    { result := childVal
      prev_child := some childVal
      pendingCall := if set_pending then some false else none
      childrenCalled := true
      fallbackCalled := false }
  else
    match prev_child with
    | some prev =>
        { result := prev
          prev_child := some prev
          pendingCall := if set_pending then some true else none
          childrenCalled := false
          fallbackCalled := false }
    | none =>
        { result := fallbackVal
          prev_child := some fallbackVal
          pendingCall := if set_pending then some true else none
          childrenCalled := false
          fallbackCalled := true }

/-- Outcome of one evaluation of the server-target render closure
(transition.rs lines 120-144).  `registered` holds the single fragment, if
any, registered with the streaming registry: the placeholder identifier and
the deferred closure that renders the children to a markup string. -/
structure ServerOutcome (V : Type) where
  result : V
  registered : Option (HydrationKey × (Unit → String))
  pendingCall : Option Bool
  childrenCalled : Bool

/-- One evaluation of the server-target render closure (transition.rs lines
120-143).  The children are rendered first, unconditionally, then the
pending-resource count of the context is consulted: if it is zero the child
is returned inline, otherwise a deferred fragment is registered under
`current_id` (the identifier peeked at entry to the component, line 118) and
the fallback is returned.  The `set_pending` prop exists on this target too
but is never consulted. -/
def serverEval {V : Type} (orig_child : Unit → V) (fallbackVal : V)
    (render_to_string : V → String) (set_pending : Bool)
    (pending_resources : Nat) (current_id : HydrationKey) : ServerOutcome V :=
  let child := orig_child ()
  if pending_resources = 0 then
    { result := child
      registered := none
      pendingCall := none
      childrenCalled := true }
  else
    { result := fallbackVal
      registered := some (current_id, fun _ => render_to_string (orig_child ()))
      pendingCall := none
      childrenCalled := true }

/-- A cursor operation performed against the ambient hydration context. -/
inductive CursorOp where
  | peek (result : HydrationKey)
  | continue_from (target : HydrationKey)
deriving DecidableEq, Repr

/-- The sequence of cursor operations the client-target Transition performs:
one `peek` at component entry (line 89) and then, on each of the `evals`
closure evaluations, a `continue_from` of the entry identifier with its
offset increased by 2 (lines 92-94). -/
def clientCursorTrace (entry : HydrationKey) (evals : Nat) : List CursorOp :=
  CursorOp.peek entry ::
    List.replicate evals (CursorOp.continue_from ⟨entry.base, entry.offset + 2⟩)

/-- The sequence of cursor operations the server-target Transition performs:
one `peek` at component entry (line 118); the closure body (lines 120-143)
performs no cursor operation, regardless of how many times it runs. -/
def serverCursorTrace (entry : HydrationKey) (evals : Nat) : List CursorOp :=
  [CursorOp.peek entry]

/-- One step of the client cache slot: the slot after evaluating the closure
on input `(ready, childVal, fallbackVal, set_pending)` with slot `cache`. -/
def clientStep {V : Type} (cache : Option V) (s : Bool × V × V × Bool) :
    Option V :=
  (clientEval s.1 s.2.1 s.2.2.1 s.2.2.2 cache).prev_child

/-- The client cache slot after a sequence of evaluations, starting from the
initial empty slot (`RefCell::new(None)`, line 87). -/
def clientRun {V : Type} (steps : List (Bool × V × V × Bool)) : Option V :=
  steps.foldl clientStep none

/-- Modelled from the spec: `SuspenseContext` (defined in leptos_reactive,
which is not among the reviewed sources).  A per-boundary counter
`pending_resources`, incremented when a tracked resource starts loading and
decremented when it settles; `new()` creates a zero-count context and
`ready()` is true iff the count is zero. -/
structure SuspenseContext where
  pending_resources : Int
deriving DecidableEq, Repr

/-- Modelled from the spec: `new()` creates a zero-count context. -/
def SuspenseContext.new : SuspenseContext := ⟨0⟩

/-- Modelled from the spec: `ready()` returns true iff the count is zero. -/
def SuspenseContext.ready (c : SuspenseContext) : Bool :=
  c.pending_resources == 0

/-- A resource bookkeeping event against a suspense context: a tracked
resource starts an async load, or a load settles. -/
inductive ResourceEvent where
  | start
  | settle
deriving DecidableEq, Repr

/-- Modelled from the spec: the effect of one resource event on the counter
(increment on start, decrement on settle). -/
def applyEvent (c : SuspenseContext) : ResourceEvent → SuspenseContext
  | ResourceEvent.start => ⟨c.pending_resources + 1⟩
  | ResourceEvent.settle => ⟨c.pending_resources - 1⟩

/-- The context obtained from `new()` after a sequence of resource events. -/
def runEvents (es : List ResourceEvent) : SuspenseContext :=
  es.foldl applyEvent SuspenseContext.new

/-- Number of start events in a sequence. -/
def countStarts (es : List ResourceEvent) : Nat :=
  (es.filter (fun e => e = ResourceEvent.start)).length

/-- Number of settle events in a sequence. -/
def countSettles (es : List ResourceEvent) : Nat :=
  (es.filter (fun e => e = ResourceEvent.settle)).length

/-- An event sequence honours the resource-system contract when no prefix
has more settle events than start events (no decrement without a matching
increment). -/
def balancedPrefixes (es : List ResourceEvent) : Bool :=
  (List.range (es.length + 1)).all
    (fun i => decide (countSettles (es.take i) ≤ countStarts (es.take i)))

theorem foldl_applyEvent_count (es : List ResourceEvent) (c : SuspenseContext) :
    (es.foldl applyEvent c).pending_resources
      = c.pending_resources + countStarts es - countSettles es := by
  induction es generalizing c with
  | nil => simp [countStarts, countSettles]
  | cons e es ih =>
    cases e with
    | start =>
        simp only [List.foldl_cons, ih, applyEvent, countStarts, countSettles,
          List.filter_cons]
        simp
        ring
    | settle =>
        simp only [List.foldl_cons, ih, applyEvent, countStarts, countSettles,
          List.filter_cons]
        simp
        ring

theorem runEvents_count (es : List ResourceEvent) :
    (runEvents es).pending_resources
      = (countStarts es : Int) - countSettles es := by
  simpa [SuspenseContext.new] using foldl_applyEvent_count es SuspenseContext.new

theorem clientStep_isSome {V : Type} (cache : Option V)
    (s : Bool × V × V × Bool) : (clientStep cache s).isSome = true := by
  cases s with
  | mk ready rest =>
      cases ready <;> cases cache <;> simp [clientStep, clientEval]

/-- Claim C1: on the client target, every evaluation of the render closure
in which the context is ready invokes the children renderer afresh, stores
the freshly rendered result into the cache slot, invokes the pending
observer (when supplied) with false, and returns the fresh result, never
the stale cache. -/
theorem transition_client_ready_renders_fresh {V : Type}
    (childVal fallbackVal : V) (set_pending : Bool) (prev_child : Option V) :
    (clientEval true childVal fallbackVal set_pending prev_child).result
        = childVal
  ∧ (clientEval true childVal fallbackVal set_pending prev_child).prev_child
        = some childVal
  ∧ (clientEval true childVal fallbackVal set_pending prev_child).childrenCalled
        = true
  ∧ (clientEval true childVal fallbackVal set_pending prev_child).pendingCall
        = (if set_pending then some false else none) := by
  refine ⟨?_, ?_, ?_, ?_⟩ <;> simp [clientEval]

/-- Claim C2: on the client target, every evaluation in which the context is
not ready and the cache slot holds a snapshot returns that snapshot
unchanged, leaves the cache slot unchanged, invokes neither the children
renderer nor the fallback renderer, and invokes the pending observer (when
supplied) with true. -/
theorem transition_client_notready_returns_cache {V : Type}
    (childVal fallbackVal prev : V) (set_pending : Bool) :
    (clientEval false childVal fallbackVal set_pending (some prev)).result
        = prev
  ∧ (clientEval false childVal fallbackVal set_pending (some prev)).prev_child
        = some prev
  ∧ (clientEval false childVal fallbackVal set_pending (some prev)).childrenCalled
        = false
  ∧ (clientEval false childVal fallbackVal set_pending (some prev)).fallbackCalled
        = false
  ∧ (clientEval false childVal fallbackVal set_pending (some prev)).pendingCall
        = (if set_pending then some true else none) := by
  refine ⟨?_, ?_, ?_, ?_, ?_⟩ <;> simp [clientEval]

/-- Claim C3: on the client target, every evaluation in which the context is
not ready and the cache slot is empty renders the fallback, stores the
fallback result into the cache slot, invokes the pending observer (when
supplied) with true, and returns the fallback result. -/
theorem transition_client_notready_no_cache_fallback {V : Type}
    (childVal fallbackVal : V) (set_pending : Bool) :
    (clientEval false childVal fallbackVal set_pending none).result
        = fallbackVal
  ∧ (clientEval false childVal fallbackVal set_pending none).prev_child
        = some fallbackVal
  ∧ (clientEval false childVal fallbackVal set_pending none).fallbackCalled
        = true
  ∧ (clientEval false childVal fallbackVal set_pending none).pendingCall
        = (if set_pending then some true else none) := by
  refine ⟨?_, ?_, ?_, ?_⟩ <;> simp [clientEval]

/-- Claim C4: on the server target, every evaluation in which the pending
resource count is zero after the render pass of the children returns the
rendered children inline and registers no fragment with the streaming
registry. -/
theorem transition_server_zero_pending_inline {V : Type}
    (orig_child : Unit → V) (fallbackVal : V) (render_to_string : V → String)
    (set_pending : Bool) (current_id : HydrationKey)
    (pending_resources : Nat) (h : pending_resources = 0) :
    (serverEval orig_child fallbackVal render_to_string set_pending
        pending_resources current_id).result = orig_child ()
  ∧ (serverEval orig_child fallbackVal render_to_string set_pending
        pending_resources current_id).registered = none := by
  subst h
  exact ⟨rfl, rfl⟩

/-- Witness for the server zero-pending claim at a concrete instance. -/
theorem transition_server_zero_pending_inline_witness :
    (serverEval (fun _ => (7 : Nat)) 0 (fun n => toString n) false 0
        ⟨0, 0⟩).result = 7
  ∧ (serverEval (fun _ => (7 : Nat)) 0 (fun n => toString n) false 0
        ⟨0, 0⟩).registered = none :=
  transition_server_zero_pending_inline (fun _ => (7 : Nat)) 0
    (fun n => toString n) false ⟨0, 0⟩ 0 rfl

/-- Claim C5: on the server target, every evaluation in which the pending
resource count is nonzero after the render pass registers exactly one
deferred fragment under the identifier peeked at component entry, returns
the fallback inline, and the registered closure, when later invoked,
produces exactly the markup string obtained by rendering the children to a
string. -/
theorem transition_server_pending_registers_fragment {V : Type}
    (orig_child : Unit → V) (fallbackVal : V) (render_to_string : V → String)
    (set_pending : Bool) (current_id : HydrationKey)
    (pending_resources : Nat) (h : pending_resources ≠ 0) :
    (serverEval orig_child fallbackVal render_to_string set_pending
        pending_resources current_id).result = fallbackVal
  ∧ ∃ f, (serverEval orig_child fallbackVal render_to_string set_pending
            pending_resources current_id).registered = some (current_id, f)
      ∧ f () = render_to_string (orig_child ()) := by
  refine ⟨?_, fun _ => render_to_string (orig_child ()), ?_, rfl⟩ <;>
    simp [serverEval, h]

/-- Witness for the server pending-registration claim at a concrete
instance. -/
theorem transition_server_pending_registers_fragment_witness :
    (serverEval (fun _ => (7 : Nat)) 0 (fun n => toString n) false 3
        ⟨1, 4⟩).result = 0
  ∧ ∃ f, (serverEval (fun _ => (7 : Nat)) 0 (fun n => toString n) false 3
            ⟨1, 4⟩).registered = some (⟨1, 4⟩, f)
      ∧ f () = toString (7 : Nat) :=
  transition_server_pending_registers_fragment (fun _ => (7 : Nat)) 0
    (fun n => toString n) false ⟨1, 4⟩ 3 (by decide)

/-- Counterexample to claim C6 as stated: on the client target an
evaluation that is not ready with an empty cache slot returns the fallback
without ever invoking the children renderer, so the children are not
rendered in every evaluation on every target. -/
theorem transition_children_first_counterexample :
    (clientEval false (0 : Nat) 1 false none).childrenCalled = false := by
  decide

/-- Claim C6 amended: on the server target the children renderer is invoked
fully, in every evaluation, before the pending count is consulted (even in
evaluations whose outcome is the fallback); on the client target readiness
is consulted first, and the children renderer is invoked exactly in the
ready evaluations. -/
theorem transition_children_render_discipline {V : Type} :
    (∀ (orig_child : Unit → V) (fallbackVal : V)
        (render_to_string : V → String) (set_pending : Bool)
        (pending_resources : Nat) (current_id : HydrationKey),
        (serverEval orig_child fallbackVal render_to_string set_pending
            pending_resources current_id).childrenCalled = true)
  ∧ (∀ (ready : Bool) (childVal fallbackVal : V) (set_pending : Bool)
        (prev_child : Option V),
        (clientEval ready childVal fallbackVal set_pending
            prev_child).childrenCalled = ready) := by
  constructor
  · intro orig_child fallbackVal render_to_string set_pending
      pending_resources current_id
    unfold serverEval
    split <;> rfl
  · intro ready childVal fallbackVal set_pending prev_child
    cases ready <;> cases prev_child <;> simp [clientEval]

/-- Counterexample to claim C7 as stated: the sequence of cursor operations
performed on the client target differs from the one performed on the server
target as soon as the closure runs once, so the cursor arithmetic is not
performed identically on every rendering target. -/
theorem transition_cursor_targets_counterexample :
    clientCursorTrace ⟨0, 0⟩ 1 ≠ serverCursorTrace ⟨0, 0⟩ 1 := by
  decide

/-- Claim C7 amended: both targets peek the same entry identifier, but only
the client-target closure performs the offset arithmetic: each client
evaluation issues continue_from of the entry identifier with offset
increased by 2, while the server closure issues no cursor operation, so the
two traces coincide exactly when the client closure never runs. -/
theorem transition_cursor_per_target (entry : HydrationKey) (evals : Nat) :
    (clientCursorTrace entry evals).head? = some (CursorOp.peek entry)
  ∧ (serverCursorTrace entry evals).head? = some (CursorOp.peek entry)
  ∧ clientCursorTrace entry evals
      = CursorOp.peek entry
          :: List.replicate evals
              (CursorOp.continue_from ⟨entry.base, entry.offset + 2⟩)
  ∧ (clientCursorTrace entry evals = serverCursorTrace entry evals
      ↔ evals = 0) := by
  refine ⟨rfl, rfl, rfl, ?_⟩
  simp [clientCursorTrace, serverCursorTrace, List.replicate_eq_nil_iff]

/-- Claim C8: the suspense context starts with a zero count; after any
sequence of resource start/settle events, ready() is true iff the number of
settle events equals the number of start events, and as long as no prefix
settles more resources than it started, the count never goes negative. -/
theorem suspense_context_ready_iff_balanced (es : List ResourceEvent) :
    SuspenseContext.new.pending_resources = 0
  ∧ ((runEvents es).ready = true ↔ countStarts es = countSettles es)
  ∧ (balancedPrefixes es = true → 0 ≤ (runEvents es).pending_resources) := by
  refine ⟨rfl, ?_, ?_⟩
  · rw [SuspenseContext.ready, beq_iff_eq, runEvents_count, sub_eq_zero]
    exact_mod_cast Iff.rfl
  · intro hb
    rw [runEvents_count, sub_nonneg]
    have h := List.all_eq_true.mp hb es.length
      (List.mem_range.mpr (Nat.lt_succ_self _))
    rw [List.take_length] at h
    exact_mod_cast of_decide_eq_true h

/-- Witness for the suspense-context claim at a concrete event sequence. -/
theorem suspense_context_ready_iff_balanced_witness :
    balancedPrefixes [ResourceEvent.start, ResourceEvent.settle] = true
  ∧ 0 ≤ (runEvents [ResourceEvent.start,
        ResourceEvent.settle]).pending_resources :=
  ⟨by decide,
    (suspense_context_ready_iff_balanced
      [ResourceEvent.start, ResourceEvent.settle]).2.2 (by decide)⟩

/-- Claim C9: the client cache slot starts empty, every ready or no-cache
evaluation stores the value it returns into the slot, the cached branch
leaves the slot unchanged, and after any nonempty sequence of evaluations
the slot holds a snapshot — it is only ever replaced, never cleared. -/
theorem transition_client_cache_invariant {V : Type} :
    clientRun ([] : List (Bool × V × V × Bool)) = none
  ∧ (∀ (steps : List (Bool × V × V × Bool)) (s : Bool × V × V × Bool),
        (clientRun (steps ++ [s])).isSome = true)
  ∧ (∀ (childVal fallbackVal : V) (set_pending : Bool)
        (prev_child : Option V),
        (clientEval true childVal fallbackVal set_pending
            prev_child).prev_child
          = some (clientEval true childVal fallbackVal set_pending
              prev_child).result)
  ∧ (∀ (childVal fallbackVal : V) (set_pending : Bool),
        (clientEval false childVal fallbackVal set_pending none).prev_child
          = some (clientEval false childVal fallbackVal set_pending
              none).result)
  ∧ (∀ (childVal fallbackVal prev : V) (set_pending : Bool),
        (clientEval false childVal fallbackVal set_pending
            (some prev)).prev_child = some prev) := by
  refine ⟨rfl, ?_, ?_, ?_, ?_⟩
  · intro steps s
    rw [clientRun, List.foldl_append]
    exact clientStep_isSome _ s
  · intro childVal fallbackVal set_pending prev_child
    simp [clientEval]
  · intro childVal fallbackVal set_pending
    simp [clientEval]
  · intro childVal fallbackVal prev set_pending
    simp [clientEval]

/-- Claim C10: on the server target the pending observer is never invoked
in any evaluation, even when the fallback is emitted; pending-observer
calls occur only on the client target, where they are made whenever an
observer was supplied. -/
theorem transition_server_never_sets_pending {V : Type} :
    (∀ (orig_child : Unit → V) (fallbackVal : V)
        (render_to_string : V → String) (set_pending : Bool)
        (pending_resources : Nat) (current_id : HydrationKey),
        (serverEval orig_child fallbackVal render_to_string set_pending
            pending_resources current_id).pendingCall = none)
  ∧ (∀ (ready : Bool) (childVal fallbackVal : V) (prev_child : Option V),
        ((clientEval ready childVal fallbackVal true
            prev_child).pendingCall).isSome = true) := by
  constructor
  · intro orig_child fallbackVal render_to_string set_pending
      pending_resources current_id
    unfold serverEval
    split <;> rfl
  · intro ready childVal fallbackVal prev_child
    cases ready <;> cases prev_child <;> simp [clientEval]

end Leptos
